import Mathlib

/-!
A shallow embedding of the GitHub-stats fetch/cache/render pipeline and the
storage housekeeping sweep of `src/js/script.js` (the Detect It Easy site
script), together with theorems about its specified behaviour.

Modelling conventions.

* JS numbers holding integer counts and epoch-millisecond times are `Int`,
  read as exact arithmetic; `Number.prototype.toFixed(1)` is modelled as
  exact rounding (half away from zero) of the rational `num / 1000` to one
  decimal place.
* A `localStorage` slot holds the result of `JSON.parse` on the stored
  string, abstracted by `CacheVal`: `malformed` (the parse throws), `jnull`
  (the parse yields `null`, so any property access throws a `TypeError`),
  or `obj rec` (any parse result that tolerates property access; an absent
  or non-numeric property is `none`).
* `Date.now()` is a parameter `now`; the single `fetch` call is an oracle
  `FetchOutcome` describing what the GET would do; the DOM is a log of
  `(elementId, text)` writes, and the viewport test on the detailed slots
  is a boolean parameter `visible`.  For an animated slot the logged text
  is the value the final animation frame leaves behind.
* `localStorage.setItem` is assumed not to throw (quota errors are not
  modelled) and all display elements are assumed to exist.
* A run of `loadStats` or `fetchFromAPI` returns a `RunState`: the final
  in-memory stats, the final stored value under the stats key, whether the
  network was contacted, the value of `this.stats` at each `updateDOM`
  invocation, the DOM writes, and whether an exception escaped the whole
  pipeline (`crashed`).
-/

namespace CONFIG

/-- `CONFIG.CACHE_KEY` from the source (line 11). -/
def CACHE_KEY : String := "die_github_stats"

/-- `CONFIG.CACHE_DURATION` (line 12): 30 minutes in milliseconds. -/
def CACHE_DURATION : Int := 30 * 60 * 1000

end CONFIG

namespace Utils

/-- `Utils.formatNumber` (source lines 44-49):
`num >= 1000 ? (num / 1000).toFixed(1) + 'k' : num.toString()`, with
`toFixed(1)` modelled as exact half-away-from-zero rounding of `num / 1000`
to one decimal place (`(num + 50) / 100` is that rounding in tenths for the
non-negative arguments reaching this branch). -/
def formatNumber (num : Int) : String :=
  if num ≥ 1000 then
    toString ((num + 50) / 100 / 10) ++ "." ++ toString ((num + 50) / 100 % 10) ++ "k"
  else
    toString num

end Utils

/-- The in-memory stats object built at source lines 113-118; a field is
`none` when the corresponding property is absent (`undefined`). -/
structure StatsSnapshot where
  stars : Option Int
  forks : Option Int
  watchers : Option Int
  openIssues : Option Int
deriving DecidableEq

/-- The persisted envelope `data` / `timestamp` written at source lines
132-135; `none` models an absent or non-numeric property. -/
structure CacheRecord where
  timestamp : Option Int
  data : Option StatsSnapshot
deriving DecidableEq

/-- What `JSON.parse` yields on a stored string: `malformed` when the parse
throws, `jnull` when it yields `null` (property access then throws), and
`obj rec` for every parse result on which property access merely yields
`undefined` for missing properties. -/
inductive CacheVal where
  | malformed : CacheVal
  | jnull : CacheVal
  | obj : CacheRecord → CacheVal
deriving DecidableEq

/-- The parsed body of an HTTP response; only the four properties extracted
at source lines 113-118 are relevant, and a `none` field is an absent
property. -/
structure ApiBody where
  stargazers_count : Option Int
  forks_count : Option Int
  subscribers_count : Option Int
  open_issues_count : Option Int
deriving DecidableEq

/-- Oracle for the single `fetch` call: the promise rejects, or a response
arrives with the given status whose `json()` either rejects (`none`) or
yields a body. -/
inductive FetchOutcome where
  | reject : FetchOutcome
  | httpResponse : Nat → Option ApiBody → FetchOutcome
deriving DecidableEq

/-- `Response.ok`: status in the inclusive range 200-299. -/
def respOk (status : Nat) : Bool :=
  decide (200 ≤ status ∧ status ≤ 299)

/-- Result of one `updateDOM` call: the `(elementId, text)` writes that land
in the DOM (for an animated slot, the final frame's text), and whether the
call returned normally; `ok = false` models a `TypeError` thrown part-way,
after the listed writes. -/
structure DOMResult where
  written : List (String × String)
  ok : Bool
deriving DecidableEq

/-- Observable state of one pipeline run. -/
structure RunState where
  stats : Option StatsSnapshot
  store : Option CacheVal
  fetched : Bool
  renderCalls : List (Option StatsSnapshot)
  domWrites : List (String × String)
  crashed : Bool
deriving DecidableEq

namespace GitHubStats

/-- The hardcoded snapshot of `showFallbackStats` (source lines 208-216). -/
def fallbackStats : StatsSnapshot :=
  { stars := some 10200, forks := some 879, watchers := some 168, openIssues := some 0 }

/-- The fixed name mapping of source lines 113-118. -/
def snapshotOfBody (b : ApiBody) : StatsSnapshot :=
  { stars := b.stargazers_count, forks := b.forks_count,
    watchers := b.subscribers_count, openIssues := b.open_issues_count }

/-- `getCachedStats` (source lines 82-100) acting on the parse result of the
stored string: returns the parsed record on a valid hit, `none` otherwise,
paired with the value left under the key afterwards.  A parse failure or a
`null` parse result lands in the `catch` and leaves the key alone; a parse
result whose age check fails - including a missing timestamp, whose `NaN`
age fails the `<` comparison - reaches `removeItem`. -/
def getCachedStats (now : Int) (store : Option CacheVal) :
    Option CacheRecord × Option CacheVal :=
  match store with
  | none => (none, none)
  | some CacheVal.malformed => (none, some CacheVal.malformed)
  | some CacheVal.jnull => (none, some CacheVal.jnull)
  | some (CacheVal.obj rec) =>
    match rec.timestamp with
    | some t =>
      if now - t < CONFIG.CACHE_DURATION then (some rec, some (CacheVal.obj rec))
      else (none, none)
    | none => (none, none)

/-- Final text an `animateNumber` call (source lines 180-206) leaves in its
slot: the formatted target, or the rendering of `NaN` when the target is
`undefined` (`NaN >= 1000` is false and `NaN.toString()` does not throw). -/
def animFinal (v : Option Int) : String :=
  match v with
  | some n => Utils.formatNumber n
  | none => "NaN"

/-- `updateDOM` (source lines 142-161): sequential slot writes in source
order.  `Utils.formatNumber` applied to an `undefined` field throws at
`num.toString()`, ending the call after the writes made so far; writes from
`animateNumber` still land because its animation frames run independently
of the throwing call. -/
def updateDOM (visible : Bool) (stats : Option StatsSnapshot) : DOMResult :=
  match stats with
  | none => { written := [], ok := true }
  | some s =>
    match s.stars with
    | none => { written := [], ok := false }
    | some st =>
      match s.forks with
      | none => { written := [(("github-stars"), Utils.formatNumber st)], ok := false }
      | some fk =>
        let hero := [(("github-stars"), Utils.formatNumber st),
                     (("github-forks"), Utils.formatNumber fk)]
        if visible then
          let det := hero ++ [(("detailed-stars"), animFinal s.stars),
                              (("detailed-forks"), animFinal s.forks),
                              (("detailed-watchers"), animFinal s.watchers)]
          match s.openIssues with
          | none => { written := det, ok := false }
          | some oi => { written := det ++ [(("detailed-issues"), toString oi)], ok := true }
        else
          match s.watchers with
          | none =>
            { written := hero ++ [(("detailed-stars"), Utils.formatNumber st),
                                  (("detailed-forks"), Utils.formatNumber fk)],
              ok := false }
          | some wt =>
            let det := hero ++ [(("detailed-stars"), Utils.formatNumber st),
                                (("detailed-forks"), Utils.formatNumber fk),
                                (("detailed-watchers"), Utils.formatNumber wt)]
            match s.openIssues with
            | none => { written := det, ok := false }
            | some oi => { written := det ++ [(("detailed-issues"), toString oi)], ok := true }

/-- `showFallbackStats` (source lines 208-216), finishing a run whose
context already produced the render calls `calls` and DOM writes `writes`;
the stored value and the fetched flag are whatever the context reached. -/
def showFallbackStats (visible : Bool) (store : Option CacheVal) (fetched : Bool)
    (calls : List (Option StatsSnapshot)) (writes : List (String × String)) : RunState :=
  let d := updateDOM visible (some fallbackStats)
  { stats := some fallbackStats, store := store, fetched := fetched,
    renderCalls := calls ++ [some fallbackStats],
    domWrites := writes ++ d.written, crashed := !d.ok }

/-- `fetchFromAPI` (source lines 102-128) with `cacheStats` (130-140)
inlined: on a rejected promise, a non-success status, or a body whose parse
rejects, the catch runs `showFallbackStats` without touching the cache; on
success the snapshot is built by the fixed name mapping, written over the
key as a fresh record stamped `now`, and rendered - a `TypeError` thrown
inside `updateDOM` is caught by the same handler and also ends in the
fallback, after the cache write. -/
def fetchFromAPI (visible : Bool) (now : Int) (outcome : FetchOutcome)
    (store : Option CacheVal) : RunState :=
  match outcome with
  | FetchOutcome.reject => showFallbackStats visible store true [] []
  | FetchOutcome.httpResponse status body =>
    if respOk status then
      match body with
      | none => showFallbackStats visible store true [] []
      | some b =>
        let s := snapshotOfBody b
        let newStore := some (CacheVal.obj { timestamp := some now, data := some s })
        let d := updateDOM visible (some s)
        if d.ok then
          { stats := some s, store := newStore, fetched := true,
            renderCalls := [some s], domWrites := d.written, crashed := false }
        else
          showFallbackStats visible newStore true [some s] d.written
    else showFallbackStats visible store true [] []

/-- `loadStats` (source lines 70-80): consult the cache first and render its
data on a hit, otherwise run the remote fetch; an exception thrown by
`updateDOM` on the hit path escapes, since `loadStats` has no handler. -/
def loadStats (visible : Bool) (now : Int) (outcome : FetchOutcome)
    (store : Option CacheVal) : RunState :=
  let c := getCachedStats now store
  match c.1 with
  | some rec =>
    let d := updateDOM visible rec.data
    { stats := rec.data, store := c.2, fetched := false,
      renderCalls := [rec.data], domWrites := d.written, crashed := !d.ok }
  | none => fetchFromAPI visible now outcome c.2

end GitHubStats

/-- `localStorage.getItem` over the whole store, modelled as an association
list keyed by strings: the first binding of `k`. -/
def lookupStore (st : List (String × CacheVal)) (k : String) : Option CacheVal :=
  match st with
  | [] => none
  | p :: rest => if p.1 = k then some p.2 else lookupStore rest k

/-- `localStorage.removeItem`. -/
def removeKey (st : List (String × CacheVal)) (k : String) : List (String × CacheVal) :=
  match st with
  | [] => []
  | p :: rest => if p.1 = k then removeKey rest k else p :: removeKey rest k

/-- `String.prototype.startsWith`, executably: prefix test on the underlying
character lists. -/
def jsStartsWith (s pre : String) : Bool :=
  List.isPrefixOf pre.data s.data

namespace StorageManager

/-- The body of the `keys.forEach` loop of `clearOldCache` (source lines
412-427), iterating over the key list captured up front.  A key outside the
`die_` namespace, or one whose item is gone, is skipped; `JSON.parse`
throwing on an item, or the parse yielding `null`, propagates out of the
`forEach` into the surrounding catch, abandoning the remaining keys with
the store as swept so far; an object older than 24 hours is removed, and a
missing timestamp gives a `NaN` age that fails the `>` comparison, so the
item is kept. -/
def sweepKeys (now : Int) (keys : List String) (st : List (String × CacheVal)) :
    List (String × CacheVal) :=
  match keys with
  | [] => st
  | k :: ks =>
    if jsStartsWith k ("die_") then
      match lookupStore st k with
      | none => sweepKeys now ks st
      | some CacheVal.malformed => st
      | some CacheVal.jnull => st
      | some (CacheVal.obj rec) =>
        match rec.timestamp with
        | some t =>
          if now - t > 24 * 60 * 60 * 1000 then sweepKeys now ks (removeKey st k)
          else sweepKeys now ks st
        | none => sweepKeys now ks st
    else sweepKeys now ks st

/-- `StorageManager.clearOldCache` (source lines 410-432): sweep every key
of the store, in store order, as `Object.keys(localStorage)` captures them. -/
def clearOldCache (now : Int) (st : List (String × CacheVal)) :
    List (String × CacheVal) :=
  sweepKeys now (st.map (fun p => p.1)) st

end StorageManager

/-- The `DOMContentLoaded` handler (source lines 435-450): the housekeeping
sweep runs first, then `GitHubStats` initializes and runs its pipeline
against the swept storage.  The first component is the storage as the sweep
left it for the other modules; the stats run's own cache write is tracked
inside its `RunState`. -/
def initPage (visible : Bool) (now : Int) (outcome : FetchOutcome)
    (storage : List (String × CacheVal)) :
    List (String × CacheVal) × RunState :=
  let cleaned := StorageManager.clearOldCache now storage
  (cleaned, GitHubStats.loadStats visible now outcome (lookupStore cleaned CONFIG.CACHE_KEY))

/-- A JS value that is a present, non-negative number. -/
def fieldOk : Option Int → Bool
  | some n => decide (0 ≤ n)
  | none => false

/-- All four snapshot fields are present (`undefined` nowhere). -/
def fullSnapshot (s : StatsSnapshot) : Bool :=
  s.stars.isSome && s.forks.isSome && s.watchers.isSome && s.openIssues.isSome

/-- All four snapshot fields are present and non-negative. -/
def wellFormedSnapshot (s : StatsSnapshot) : Bool :=
  fieldOk s.stars && fieldOk s.forks && fieldOk s.watchers && fieldOk s.openIssues

/-- The response body carries all four extracted properties as non-negative
numbers. -/
def wellFormedBody (b : ApiBody) : Bool :=
  fieldOk b.stargazers_count && fieldOk b.forks_count &&
  fieldOk b.subscribers_count && fieldOk b.open_issues_count

/-- The fetch-stage failures enumerated by the source's catch: the promise
rejects, the status is not a success, or the body parse rejects. -/
def fetchFailure : FetchOutcome → Bool
  | FetchOutcome.reject => true
  | FetchOutcome.httpResponse status body => !(respOk status) || body.isNone

/-- The response body of the cold-start scenario in the specification. -/
def sampleBody : ApiBody :=
  { stargazers_count := some 500, forks_count := some 20,
    subscribers_count := some 5, open_issues_count := some 2 }

/-- A rendering pass over a fully populated snapshot returns normally. -/
theorem updateDOM_ok_of_full (v : Bool) (s : StatsSnapshot) (h : fullSnapshot s = true) :
    (GitHubStats.updateDOM v (some s)).ok = true := by
  obtain ⟨a, b, c, d⟩ := s
  simp only [fullSnapshot, Bool.and_eq_true, Option.isSome_iff_exists] at h
  obtain ⟨⟨⟨⟨x, rfl⟩, ⟨y, rfl⟩⟩, ⟨z, rfl⟩⟩, ⟨w, rfl⟩⟩ := h
  cases v <;> rfl

/-- Claim C4: for every non-negative integer `n`, `Utils.formatNumber`
returns the exact decimal string of `n` below 1000; from 1000 on it returns
`n / 1000` rounded to one decimal place (the digit string of a tenths value
`t` within half a tenth of `n / 100`) followed by the letter k; in
particular 10200, 999 and 1000 format as the specification says. -/
theorem c4_formatNumber (n : Int) (h0 : 0 ≤ n) :
    (n < 1000 → Utils.formatNumber n = toString n) ∧
    (1000 ≤ n → ∃ t : Int, 0 ≤ t ∧ n - 100 * t ≤ 50 ∧ 100 * t - n ≤ 50 ∧
      Utils.formatNumber n = toString (t / 10) ++ "." ++ toString (t % 10) ++ "k") ∧
    Utils.formatNumber 10200 = "10.2k" ∧
    Utils.formatNumber 999 = "999" ∧
    Utils.formatNumber 1000 = "1.0k" := by
  refine ⟨?_, ?_, rfl, rfl, rfl⟩
  · intro h
    unfold Utils.formatNumber
    rw [if_neg (by omega)]
  · intro h
    have hdm := Int.ediv_add_emod (n + 50) 100
    have h2 := Int.emod_nonneg (n + 50) (by norm_num : (100 : Int) ≠ 0)
    have h3 := Int.emod_lt_of_pos (n + 50) (by norm_num : (0 : Int) < 100)
    refine ⟨(n + 50) / 100, by omega, by omega, by omega, ?_⟩
    unfold Utils.formatNumber
    rw [if_pos (show n ≥ 1000 from h)]

/-- Witness for C4 at the specification's own example inputs. -/
theorem c4_witness :
    Utils.formatNumber 10200 = "10.2k" ∧ Utils.formatNumber 999 = "999" ∧
    Utils.formatNumber 1000 = "1.0k" :=
  ⟨(c4_formatNumber 10200 (by decide)).2.2.1,
   (c4_formatNumber 0 (by decide)).2.2.2.1,
   (c4_formatNumber 0 (by decide)).2.2.2.2⟩

/-- Claim C5: a record whose age is exactly the 30-minute duration is
treated as expired (no record, key evicted), and the read yields a record
exactly when `now - timestamp < CACHE_DURATION`, a strict comparison. -/
theorem c5_boundary (now t : Int) (d : Option StatsSnapshot)
    (h : now - t = CONFIG.CACHE_DURATION) :
    GitHubStats.getCachedStats now
      (some (CacheVal.obj { timestamp := some t, data := d })) = (none, none) ∧
    (∀ m : Int,
      ((GitHubStats.getCachedStats m
        (some (CacheVal.obj { timestamp := some t, data := d }))).1).isSome = true ↔
      m - t < CONFIG.CACHE_DURATION) := by
  constructor
  · simp [GitHubStats.getCachedStats, h]
  · intro m
    by_cases hm : m - t < CONFIG.CACHE_DURATION <;>
      simp [GitHubStats.getCachedStats, hm]

/-- Witness for C5: a record stamped 0 read exactly 30 minutes later. -/
theorem c5_witness :
    GitHubStats.getCachedStats 1800000
      (some (CacheVal.obj { timestamp := some 0, data := none })) = (none, none) :=
  (c5_boundary 1800000 0 none (by decide)).1

/-- Claim C6: a cache read that finds a parseable record at least 30 minutes
old deletes the key as a side effect and returns no record. -/
theorem c6_expired_evicted (now t : Int) (d : Option StatsSnapshot)
    (h : CONFIG.CACHE_DURATION ≤ now - t) :
    GitHubStats.getCachedStats now
      (some (CacheVal.obj { timestamp := some t, data := d })) = (none, none) := by
  simp only [GitHubStats.getCachedStats]
  rw [if_neg (not_lt.mpr h)]

/-- Witness for C6: a record stamped 0 read 25 hours later. -/
theorem c6_witness :
    GitHubStats.getCachedStats 90000000
      (some (CacheVal.obj { timestamp := some 0, data := none })) = (none, none) :=
  c6_expired_evicted 90000000 0 none (by decide)

/-- Counterexample to C10: a stored value that is valid JSON but not a
CacheRecord - the empty object, with no timestamp - is deleted by the read
path (the `NaN` age fails the `<` test and reaches `removeItem`), not left
in place as the claim states. -/
theorem c10_counterexample :
    GitHubStats.getCachedStats 0
      (some (CacheVal.obj { timestamp := none, data := none })) = (none, none) := by decide

/-- Claim C10 as amended: a stored value on which `JSON.parse` throws, or
which parses to `null` (property access throws), makes the read return no
record and leaves the key unchanged; but a value that parses to an object
that is not a CacheRecord - no numeric timestamp - is deleted by the read
through the expiry branch. -/
theorem c10_malformed (now : Int) (d : Option StatsSnapshot) :
    GitHubStats.getCachedStats now (some CacheVal.malformed)
      = (none, some CacheVal.malformed) ∧
    GitHubStats.getCachedStats now (some CacheVal.jnull)
      = (none, some CacheVal.jnull) ∧
    GitHubStats.getCachedStats now (some (CacheVal.obj { timestamp := none, data := d }))
      = (none, none) :=
  ⟨rfl, rfl, rfl⟩

/-- Witness for the amended C10 at a concrete time and datum. -/
theorem c10_witness :
    GitHubStats.getCachedStats 5 (some CacheVal.malformed)
      = (none, some CacheVal.malformed) :=
  (c10_malformed 5 none).1

/-- Every run of the fetch stage contacts the network, whatever the
outcome. -/
theorem fetchFromAPI_fetched (v : Bool) (now : Int) (o : FetchOutcome)
    (store : Option CacheVal) : (GitHubStats.fetchFromAPI v now o store).fetched = true := by
  cases o with
  | reject => rfl
  | httpResponse status body =>
    cases hok : respOk status with
    | false => simp [GitHubStats.fetchFromAPI, GitHubStats.showFallbackStats, hok]
    | true =>
      cases body with
      | none => simp [GitHubStats.fetchFromAPI, GitHubStats.showFallbackStats, hok]
      | some b =>
        cases hd : (GitHubStats.updateDOM v (some (GitHubStats.snapshotOfBody b))).ok <;>
          simp [GitHubStats.fetchFromAPI, GitHubStats.showFallbackStats, hok, hd]

/-- On an HTTP-success outcome the fetch stage overwrites the key with a
fresh record stamped `now` holding the mapped snapshot, and that snapshot
is the first thing handed to rendering. -/
theorem fetchFromAPI_success (v : Bool) (now : Int) (status : Nat) (b : ApiBody)
    (store : Option CacheVal) (hok : respOk status = true) :
    (GitHubStats.fetchFromAPI v now (FetchOutcome.httpResponse status (some b)) store).store
      = some (CacheVal.obj { timestamp := some now, data := some (GitHubStats.snapshotOfBody b) }) ∧
    (GitHubStats.fetchFromAPI v now (FetchOutcome.httpResponse status (some b)) store).renderCalls.head?
      = some (some (GitHubStats.snapshotOfBody b)) ∧
    (GitHubStats.fetchFromAPI v now (FetchOutcome.httpResponse status (some b)) store).fetched
      = true := by
  cases hd : (GitHubStats.updateDOM v (some (GitHubStats.snapshotOfBody b))).ok <;>
    simp [GitHubStats.fetchFromAPI, GitHubStats.showFallbackStats, hok, hd]

/-- Claim C1: every failing execution of the fetch stage - the promise
rejects, the status is not a success, or the body parse rejects - renders
the fixed fallback snapshot with stars 10200, forks 879, watchers 168 and
zero open issues, and performs no cache write. -/
theorem c1_failure_fallback (v : Bool) (now : Int) (o : FetchOutcome)
    (store : Option CacheVal) (h : fetchFailure o = true) :
    GitHubStats.fetchFromAPI v now o store =
      { stats := some GitHubStats.fallbackStats, store := store, fetched := true,
        renderCalls := [some GitHubStats.fallbackStats],
        domWrites := (GitHubStats.updateDOM v (some GitHubStats.fallbackStats)).written,
        crashed := false } ∧
    GitHubStats.fallbackStats =
      { stars := some 10200, forks := some 879, watchers := some 168, openIssues := some 0 } := by
  refine ⟨?_, rfl⟩
  have hfb : (GitHubStats.updateDOM v (some GitHubStats.fallbackStats)).ok = true :=
    updateDOM_ok_of_full v GitHubStats.fallbackStats (by decide)
  cases o with
  | reject => simp [GitHubStats.fetchFromAPI, GitHubStats.showFallbackStats, hfb]
  | httpResponse status body =>
    cases hok : respOk status with
    | false => simp [GitHubStats.fetchFromAPI, GitHubStats.showFallbackStats, hok, hfb]
    | true =>
      cases body with
      | none => simp [GitHubStats.fetchFromAPI, GitHubStats.showFallbackStats, hok, hfb]
      | some b => simp [fetchFailure, hok] at h

/-- Witness for C1: a rejected fetch against an empty store. -/
theorem c1_witness :
    GitHubStats.fetchFromAPI false 0 FetchOutcome.reject none =
      { stats := some GitHubStats.fallbackStats, store := none, fetched := true,
        renderCalls := [some GitHubStats.fallbackStats],
        domWrites := (GitHubStats.updateDOM false (some GitHubStats.fallbackStats)).written,
        crashed := false } :=
  (c1_failure_fallback false 0 FetchOutcome.reject none (by decide)).1

/-- Claim C2: a load made while a valid (non-expired) record sits under the
key uses the cached data directly and issues no network request; and after
a load that misses and fetches successfully at `t1`, a second load within
the 30-minute window does not fetch - so the pair performs exactly one
remote fetch. -/
theorem c2_cache_hit_no_fetch :
    (∀ (v : Bool) (now t : Int) (o : FetchOutcome) (d : Option StatsSnapshot),
      now - t < CONFIG.CACHE_DURATION →
      (GitHubStats.loadStats v now o
        (some (CacheVal.obj { timestamp := some t, data := d }))).fetched = false ∧
      (GitHubStats.loadStats v now o
        (some (CacheVal.obj { timestamp := some t, data := d }))).stats = d ∧
      (GitHubStats.loadStats v now o
        (some (CacheVal.obj { timestamp := some t, data := d }))).renderCalls = [d]) ∧
    (∀ (v1 v2 : Bool) (t1 t2 : Int) (status : Nat) (b : ApiBody) (o2 : FetchOutcome)
      (store : Option CacheVal),
      (GitHubStats.getCachedStats t1 store).1 = none → respOk status = true →
      t2 - t1 < CONFIG.CACHE_DURATION →
      (GitHubStats.loadStats v1 t1 (FetchOutcome.httpResponse status (some b)) store).fetched
        = true ∧
      (GitHubStats.loadStats v2 t2 o2
        (GitHubStats.loadStats v1 t1 (FetchOutcome.httpResponse status (some b)) store).store).fetched
        = false) := by
  constructor
  · intro v now t o d h
    simp [GitHubStats.loadStats, GitHubStats.getCachedStats, h]
  · intro v1 v2 t1 t2 status b o2 store h1 hok h2
    have hload : GitHubStats.loadStats v1 t1 (FetchOutcome.httpResponse status (some b)) store
        = GitHubStats.fetchFromAPI v1 t1 (FetchOutcome.httpResponse status (some b))
            (GitHubStats.getCachedStats t1 store).2 := by
      simp [GitHubStats.loadStats, h1]
    have hstore :=
      (fetchFromAPI_success v1 t1 status b (GitHubStats.getCachedStats t1 store).2 hok).1
    constructor
    · rw [hload]
      exact fetchFromAPI_fetched v1 t1 _ _
    · rw [hload, hstore]
      simp [GitHubStats.loadStats, GitHubStats.getCachedStats, h2]

/-- Witness for C2: a warm-cache load does not fetch, and a cold load that
fetches successfully shields a second load made half a window later. -/
theorem c2_witness :
    (GitHubStats.loadStats false 1000 FetchOutcome.reject
      (some (CacheVal.obj { timestamp := some 0, data := some GitHubStats.fallbackStats }))).fetched
      = false ∧
    (GitHubStats.loadStats false 900000 FetchOutcome.reject
      (GitHubStats.loadStats false 0 (FetchOutcome.httpResponse 200 (some sampleBody)) none).store).fetched
      = false :=
  ⟨(c2_cache_hit_no_fetch.1 false 1000 0 FetchOutcome.reject
      (some GitHubStats.fallbackStats) (by decide)).1,
   (c2_cache_hit_no_fetch.2 false false 0 900000 200 sampleBody FetchOutcome.reject none
      (by decide) (by decide) (by decide)).2⟩

/-- Claim C3: a fetch whose response is an HTTP success extracts the four
counts by the fixed name mapping into a snapshot, persists it as a fresh
record stamped with the current time - overwriting whatever was under the
key - and hands that snapshot to rendering. -/
theorem c3_success_persist (v : Bool) (now : Int) (status : Nat) (b : ApiBody)
    (store : Option CacheVal) (hok : respOk status = true) :
    (GitHubStats.fetchFromAPI v now (FetchOutcome.httpResponse status (some b)) store).store
      = some (CacheVal.obj { timestamp := some now, data := some (GitHubStats.snapshotOfBody b) }) ∧
    (GitHubStats.fetchFromAPI v now (FetchOutcome.httpResponse status (some b)) store).renderCalls.head?
      = some (some (GitHubStats.snapshotOfBody b)) ∧
    GitHubStats.snapshotOfBody b =
      { stars := b.stargazers_count, forks := b.forks_count,
        watchers := b.subscribers_count, openIssues := b.open_issues_count } :=
  ⟨(fetchFromAPI_success v now status b store hok).1,
   (fetchFromAPI_success v now status b store hok).2.1, rfl⟩

/-- Witness for C3: the specification's cold-start body at time 7 over a
previously occupied key. -/
theorem c3_witness :
    (GitHubStats.fetchFromAPI false 7 (FetchOutcome.httpResponse 200 (some sampleBody))
      (some CacheVal.malformed)).store
      = some (CacheVal.obj { timestamp := some 7, data := some (GitHubStats.snapshotOfBody sampleBody) }) :=
  (c3_success_persist false 7 200 sampleBody (some CacheVal.malformed) (by decide)).1

/-- Counterexample to C8: an HTTP-success body carrying none of the four
fields is normalized into a snapshot with every field absent, and that
partial snapshot is constructed, persisted under the key, and handed to
rendering. -/
theorem c8_counterexample :
    (GitHubStats.fetchFromAPI false 0 (FetchOutcome.httpResponse 200
      (some { stargazers_count := none, forks_count := none, subscribers_count := none, open_issues_count := none })) none).store
      = some (CacheVal.obj { timestamp := some 0, data := some { stars := none, forks := none, watchers := none, openIssues := none } }) ∧
    wellFormedSnapshot { stars := none, forks := none, watchers := none, openIssues := none }
      = false := by decide

/-- Claim C8 as amended: the code performs no validation - the snapshot
copies the four response properties verbatim - so the invariant holds
exactly when the input does: a success body carrying all four counts
non-negative yields a fully populated, non-negative snapshot, which is
persisted and rendered; a missing property is copied as an absent field. -/
theorem c8_wellformed (v : Bool) (now : Int) (status : Nat) (b : ApiBody)
    (store : Option CacheVal) (hok : respOk status = true)
    (hb : wellFormedBody b = true) :
    wellFormedSnapshot (GitHubStats.snapshotOfBody b) = true ∧
    (GitHubStats.fetchFromAPI v now (FetchOutcome.httpResponse status (some b)) store).store
      = some (CacheVal.obj { timestamp := some now, data := some (GitHubStats.snapshotOfBody b) }) ∧
    (GitHubStats.fetchFromAPI v now (FetchOutcome.httpResponse status (some b)) store).renderCalls.head?
      = some (some (GitHubStats.snapshotOfBody b)) :=
  ⟨hb, (fetchFromAPI_success v now status b store hok).1,
   (fetchFromAPI_success v now status b store hok).2.1⟩

/-- Witness for the amended C8 on the specification's cold-start body. -/
theorem c8_witness :
    wellFormedSnapshot (GitHubStats.snapshotOfBody sampleBody) = true :=
  (c8_wellformed false 0 200 sampleBody none (by decide) (by decide)).1

/-- Counterexample to C9: a cache hit on a valid-timestamped record whose
data object lacks the four fields - exactly what a prior field-less success
leaves behind - throws an uncaught `TypeError` before any slot is written:
rendering is skipped and the error escapes the pipeline. -/
theorem c9_counterexample :
    (GitHubStats.loadStats false 0 FetchOutcome.reject
      (some (CacheVal.obj { timestamp := some 0, data := some { stars := none, forks := none, watchers := none, openIssues := none } }))).domWrites
      = [] ∧
    (GitHubStats.loadStats false 0 FetchOutcome.reject
      (some (CacheVal.obj { timestamp := some 0, data := some { stars := none, forks := none, watchers := none, openIssues := none } }))).crashed
      = true := by decide

/-- A rendering pass over a present snapshot that returns normally has
written every one of the six display slots, in source order. -/
theorem updateDOM_ok_slots (v : Bool) (s : StatsSnapshot)
    (h : (GitHubStats.updateDOM v (some s)).ok = true) :
    ((GitHubStats.updateDOM v (some s)).written).map Prod.fst
      = [("github-stars"), ("github-forks"), ("detailed-stars"),
         ("detailed-forks"), ("detailed-watchers"), ("detailed-issues")] := by
  obtain ⟨a, b, c, d⟩ := s
  cases a with
  | none => simp [GitHubStats.updateDOM] at h
  | some x =>
    cases b with
    | none => simp [GitHubStats.updateDOM] at h
    | some y =>
      cases v with
      | true =>
        cases d with
        | none => simp [GitHubStats.updateDOM] at h
        | some w => simp [GitHubStats.updateDOM]
      | false =>
        cases c with
        | none => simp [GitHubStats.updateDOM] at h
        | some z =>
          cases d with
          | none => simp [GitHubStats.updateDOM] at h
          | some w => simp [GitHubStats.updateDOM]

/-- Claim C9 as amended: provided every cache hit delivers a record whose
data object carries all four fields, every pipeline outcome - cache hit,
fetch success (including a success whose body lacks fields, where the
render `TypeError` is caught and the fallback pass completes), and every
combination of cache, network and response-shape failures - finishes with
no escaping error and with its DOM writes ending in a complete, successful
rendering pass of some snapshot over all six display slots; a cache hit on
a record with partial data instead throws uncaught with no slot written. -/
theorem c9_always_renders (v : Bool) (now : Int) (o : FetchOutcome)
    (store : Option CacheVal)
    (hcache : ∀ rec, (GitHubStats.getCachedStats now store).1 = some rec →
      ∃ s, rec.data = some s ∧ fullSnapshot s = true) :
    (GitHubStats.loadStats v now o store).crashed = false ∧
    ∃ s pre, (GitHubStats.loadStats v now o store).domWrites
        = pre ++ (GitHubStats.updateDOM v (some s)).written ∧
      (GitHubStats.updateDOM v (some s)).ok = true ∧
      ((GitHubStats.updateDOM v (some s)).written).map Prod.fst
        = [("github-stars"), ("github-forks"), ("detailed-stars"),
           ("detailed-forks"), ("detailed-watchers"), ("detailed-issues")] := by
  have hfb : (GitHubStats.updateDOM v (some GitHubStats.fallbackStats)).ok = true :=
    updateDOM_ok_of_full v GitHubStats.fallbackStats (by decide)
  have hfbslots := updateDOM_ok_slots v GitHubStats.fallbackStats hfb
  cases hc : (GitHubStats.getCachedStats now store).1 with
  | some rec =>
    obtain ⟨s, hdata, hfull⟩ := hcache rec hc
    have hok := updateDOM_ok_of_full v s hfull
    refine ⟨?_, s, [], ?_, hok, updateDOM_ok_slots v s hok⟩ <;>
      simp [GitHubStats.loadStats, hc, hdata, hok]
  | none =>
    have hload : GitHubStats.loadStats v now o store
        = GitHubStats.fetchFromAPI v now o (GitHubStats.getCachedStats now store).2 := by
      simp [GitHubStats.loadStats, hc]
    rw [hload]
    cases o with
    | reject =>
      refine ⟨?_, GitHubStats.fallbackStats, [], ?_, hfb, hfbslots⟩ <;>
        simp [GitHubStats.fetchFromAPI, GitHubStats.showFallbackStats, hfb]
    | httpResponse status body =>
      cases hok : respOk status with
      | false =>
        refine ⟨?_, GitHubStats.fallbackStats, [], ?_, hfb, hfbslots⟩ <;>
          simp [GitHubStats.fetchFromAPI, GitHubStats.showFallbackStats, hok, hfb]
      | true =>
        cases body with
        | none =>
          refine ⟨?_, GitHubStats.fallbackStats, [], ?_, hfb, hfbslots⟩ <;>
            simp [GitHubStats.fetchFromAPI, GitHubStats.showFallbackStats, hok, hfb]
        | some b =>
          cases hd : (GitHubStats.updateDOM v (some (GitHubStats.snapshotOfBody b))).ok with
          | true =>
            refine ⟨?_, GitHubStats.snapshotOfBody b, [], ?_, hd,
              updateDOM_ok_slots v (GitHubStats.snapshotOfBody b) hd⟩ <;>
              simp [GitHubStats.fetchFromAPI, hok, hd]
          | false =>
            refine ⟨?_, GitHubStats.fallbackStats,
              (GitHubStats.updateDOM v (some (GitHubStats.snapshotOfBody b))).written,
              ?_, hfb, hfbslots⟩ <;>
              simp [GitHubStats.fetchFromAPI, GitHubStats.showFallbackStats, hok, hd, hfb]

/-- Witness for the amended C9: a cold start whose fetch rejects still ends
with a complete fallback rendering pass and no escaping error. -/
theorem c9_witness :
    (GitHubStats.loadStats false 0 FetchOutcome.reject none).crashed = false ∧
    ∃ s pre, (GitHubStats.loadStats false 0 FetchOutcome.reject none).domWrites
        = pre ++ (GitHubStats.updateDOM false (some s)).written ∧
      (GitHubStats.updateDOM false (some s)).ok = true ∧
      ((GitHubStats.updateDOM false (some s)).written).map Prod.fst
        = [("github-stars"), ("github-forks"), ("detailed-stars"),
           ("detailed-forks"), ("detailed-watchers"), ("detailed-issues")] :=
  c9_always_renders false 0 FetchOutcome.reject none
    (by intro rec h; simp [GitHubStats.getCachedStats] at h)

/-- Looking a key up after removing it finds nothing. -/
theorem lookupStore_removeKey_self (st : List (String × CacheVal)) (k : String) :
    lookupStore (removeKey st k) k = none := by
  induction st with
  | nil => rfl
  | cons p rest ih =>
    by_cases h : p.1 = k
    · simp [removeKey, h, ih]
    · simp [removeKey, lookupStore, h, ih]

/-- Removing one key does not disturb lookups of another. -/
theorem lookupStore_removeKey_other (st : List (String × CacheVal)) (k k2 : String)
    (h : k ≠ k2) : lookupStore (removeKey st k2) k = lookupStore st k := by
  induction st with
  | nil => rfl
  | cons p rest ih =>
    by_cases h1 : p.1 = k2
    · have h2 : ¬ p.1 = k := by
        rw [h1]
        exact fun hh => h hh.symm
      simp [removeKey, lookupStore, h1, h2, ih, h, Ne.symm h]
    · by_cases h2 : p.1 = k
      · simp [removeKey, lookupStore, h1, h2, h, Ne.symm h]
      · simp [removeKey, lookupStore, h1, h2, ih, h, Ne.symm h]

/-- A key absent from the store stays absent after any removal. -/
theorem lookupStore_removeKey_none (st : List (String × CacheVal)) (k k2 : String)
    (h : lookupStore st k = none) : lookupStore (removeKey st k2) k = none := by
  by_cases hk : k = k2
  · rw [hk]
    exact lookupStore_removeKey_self st k2
  · rw [lookupStore_removeKey_other st k k2 hk]
    exact h

/-- Removal only ever drops bindings. -/
theorem mem_removeKey (st : List (String × CacheVal)) (k : String)
    (p : String × CacheVal) (h : p ∈ removeKey st k) : p ∈ st := by
  induction st with
  | nil => exact absurd h (by simp [removeKey])
  | cons q rest ih =>
    by_cases h1 : q.1 = k
    · rw [removeKey, if_pos h1] at h
      exact List.mem_cons_of_mem q (ih h)
    · rw [removeKey, if_neg h1] at h
      rcases List.mem_cons.mp h with h2 | h2
      · rw [h2]
        exact List.mem_cons_self q rest
      · exact List.mem_cons_of_mem q (ih h2)

/-- A successful lookup exhibits a binding of the store. -/
theorem lookup_mem (st : List (String × CacheVal)) (k : String) (v : CacheVal)
    (h : lookupStore st k = some v) : (k, v) ∈ st := by
  induction st with
  | nil => cases h
  | cons p rest ih =>
    obtain ⟨a, b⟩ := p
    by_cases h1 : a = k
    · simp only [lookupStore] at h
      rw [if_pos h1] at h
      injection h with h2
      rw [← h1, ← h2]
      exact List.mem_cons_self _ _
    · simp only [lookupStore] at h
      rw [if_neg h1] at h
      exact List.mem_cons_of_mem _ (ih h)

/-- The sweep never resurrects a key: a key absent from the store is still
absent after sweeping any key list over it. -/
theorem sweep_preserves_none (now : Int) (keys : List String) :
    ∀ (st : List (String × CacheVal)) (k : String), lookupStore st k = none →
    lookupStore (StorageManager.sweepKeys now keys st) k = none := by
  induction keys with
  | nil => intro st k h; exact h
  | cons k2 ks ih =>
    intro st k h
    cases hp : jsStartsWith k2 ("die_") with
    | false => simpa [StorageManager.sweepKeys, hp] using ih st k h
    | true =>
      cases hv : lookupStore st k2 with
      | none => simpa [StorageManager.sweepKeys, hp, hv] using ih st k h
      | some v =>
        cases v with
        | malformed => simpa [StorageManager.sweepKeys, hp, hv] using h
        | jnull => simpa [StorageManager.sweepKeys, hp, hv] using h
        | obj rec =>
          cases ht : rec.timestamp with
          | none => simpa [StorageManager.sweepKeys, hp, hv, ht] using ih st k h
          | some t =>
            by_cases hage : (86400000 : Int) < now - t
            · simpa [StorageManager.sweepKeys, hp, hv, ht, hage] using
                ih (removeKey st k2) k (lookupStore_removeKey_none st k k2 h)
            · simpa [StorageManager.sweepKeys, hp, hv, ht, hage] using ih st k h

/-- Provided every namespaced value in the store parses to an object, a
namespaced key bound to a record more than 24 hours old is absent after the
sweep visits it. -/
theorem sweep_removes_old (now : Int) (keys : List String) :
    ∀ (st : List (String × CacheVal)) (k : String) (t : Int) (d : Option StatsSnapshot),
    (∀ p ∈ st, jsStartsWith p.1 ("die_") = true → ∃ rec, p.2 = CacheVal.obj rec) →
    lookupStore st k = some (CacheVal.obj { timestamp := some t, data := d }) →
    k ∈ keys → jsStartsWith k ("die_") = true → now - t > 24 * 60 * 60 * 1000 →
    lookupStore (StorageManager.sweepKeys now keys st) k = none := by
  induction keys with
  | nil =>
    intro st k t d _ _ hmem _ _
    cases hmem
  | cons k2 ks ih =>
    intro st k t d hwf hk hmem hp hold
    have hold2 : (86400000 : Int) < now - t := by omega
    by_cases hkk : k2 = k
    · subst hkk
      have hrm := sweep_preserves_none now ks (removeKey st k2) k2
        (lookupStore_removeKey_self st k2)
      simpa [StorageManager.sweepKeys, hp, hk, hold2] using hrm
    · have hne : k ≠ k2 := fun hh => hkk hh.symm
      have hmem2 : k ∈ ks := by
        rcases List.mem_cons.mp hmem with h | h
        · exact absurd h.symm hkk
        · exact h
      cases hpb : jsStartsWith k2 ("die_") with
      | false =>
        simpa [StorageManager.sweepKeys, hpb] using ih st k t d hwf hk hmem2 hp hold
      | true =>
        cases hv : lookupStore st k2 with
        | none =>
          simpa [StorageManager.sweepKeys, hpb, hv] using ih st k t d hwf hk hmem2 hp hold
        | some v =>
          obtain ⟨rec, hrec⟩ := hwf (k2, v) (lookup_mem st k2 v hv) hpb
          subst hrec
          cases ht : rec.timestamp with
          | none =>
            simpa [StorageManager.sweepKeys, hpb, hv, ht] using
              ih st k t d hwf hk hmem2 hp hold
          | some t2 =>
            by_cases hage : (86400000 : Int) < now - t2
            · have hk2 : lookupStore (removeKey st k2) k
                  = some (CacheVal.obj { timestamp := some t, data := d }) := by
                rw [lookupStore_removeKey_other st k k2 hne]
                exact hk
              have hwf2 : ∀ p ∈ removeKey st k2,
                  jsStartsWith p.1 ("die_") = true → ∃ r, p.2 = CacheVal.obj r :=
                fun p hpmem => hwf p (mem_removeKey st k2 p hpmem)
              simpa [StorageManager.sweepKeys, hpb, hv, ht, hage] using
                ih (removeKey st k2) k t d hwf2 hk2 hmem2 hp hold
            · simpa [StorageManager.sweepKeys, hpb, hv, ht, hage] using
                ih st k t d hwf hk hmem2 hp hold

/-- Counterexample to C7: with a malformed value under an earlier namespaced
key, the parse throws, the whole `forEach` aborts into the catch, and a
namespaced record 25 hours old survives the sweep. -/
theorem c7_counterexample :
    lookupStore
      (StorageManager.clearOldCache 90000000
        [(("die_a"), CacheVal.malformed),
         (("die_b"), CacheVal.obj { timestamp := some 0, data := none })])
      ("die_b") = some (CacheVal.obj { timestamp := some 0, data := none }) := by decide

/-- Claim C7 as amended: the sweep runs at startup before the stats provider
reads storage, and provided every value under the namespace prefix parses
to an object, every namespaced key whose timestamp is more than 24 hours
old is absent afterwards (in particular one 25 hours old); a namespaced
value whose parse throws, or parses to null, aborts the sweep early and can
leave older keys in place. -/
theorem c7_sweep (v : Bool) (o : FetchOutcome) (now t : Int) (k : String)
    (st : List (String × CacheVal)) (d : Option StatsSnapshot)
    (hwf : ∀ p ∈ st, jsStartsWith p.1 ("die_") = true → ∃ rec, p.2 = CacheVal.obj rec)
    (hk : lookupStore st k = some (CacheVal.obj { timestamp := some t, data := d }))
    (hp : jsStartsWith k ("die_") = true)
    (hold : now - t > 24 * 60 * 60 * 1000) :
    lookupStore (StorageManager.clearOldCache now st) k = none ∧
    (initPage v now o st).1 = StorageManager.clearOldCache now st := by
  constructor
  · have hmem : k ∈ st.map (fun p => p.1) :=
      List.mem_map.mpr ⟨_, lookup_mem st k _ hk, rfl⟩
    exact sweep_removes_old now (st.map (fun p => p.1)) st k t d hwf hk hmem hp hold
  · rfl

/-- Witness for the amended C7: a single namespaced record 25 hours old is
gone after the sweep. -/
theorem c7_witness :
    lookupStore
      (StorageManager.clearOldCache 90000000
        [(("die_github_stats"), CacheVal.obj { timestamp := some 0, data := none })])
      ("die_github_stats") = none :=
  (c7_sweep false FetchOutcome.reject 90000000 0 ("die_github_stats")
    [(("die_github_stats"), CacheVal.obj { timestamp := some 0, data := none })] none
    (by
      intro p hp hpre
      rw [List.mem_singleton] at hp
      exact ⟨{ timestamp := some 0, data := none }, by rw [hp]⟩)
    (by decide) (by decide) (by decide)).1
